import Mathlib

/-!
Shallow embedding of the fire-detection web application (app.py).

The embedding models, faithfully to the Python source:
- the TTS alert throttle (speak_text, globals is_speaking / last_tts_time,
  TTS_INTERVAL = 5 seconds), with time passed explicitly;
- the per-frame detection loop body of generate_frames (confidence filter,
  overlay drawing, first-match fire alert);
- the camera / recording global state (camera, is_camera_active, recording,
  out) and the functions get_camera, release_camera, start_recording,
  stop_recording, with device / writer availability passed as parameters
  and ghost counters instrumenting writer creation and release;
- the generate_frames loop (read failure breaks; any exception in the try
  block is printed and breaks) and the WebSocket endpoint loop.

Confidences and timestamps are rationals; 0.5 is written (1 : ℚ) / 2.
-/

namespace FireApp

/-- State of the TTS throttle: the globals `is_speaking` and `last_tts_time`. -/
structure TTSState where
  is_speaking : Bool
  last_tts_time : ℚ
deriving DecidableEq

/-- `TTS_INTERVAL = 5` seconds. -/
def TTS_INTERVAL : ℚ := 5

/-- `speak_text`, with the current time passed explicitly. Returns whether the
speech side effect was initiated (a worker thread started) together with the
updated throttle state: it fires iff
`current_time - last_tts_time >= TTS_INTERVAL and not is_speaking`, and a
firing call sets `is_speaking := true` and `last_tts_time := now`. The
worker thread clears `is_speaking` when it finishes; that external clear is
modelled separately where call sequences are considered. -/
def speak_text (now : ℚ) (s : TTSState) : Bool × TTSState :=
  if TTS_INTERVAL ≤ now - s.last_tts_time ∧ s.is_speaking = false then
    (true, { is_speaking := true, last_tts_time := now })
  else
    (false, s)

/-- The confidence threshold of the overlay filter: `conf > 0.5`. -/
def conf_threshold : ℚ := 1 / 2

/-- One detection box returned by the model: pixel coordinates, confidence,
class index (`model.names` maps the index to a label). -/
structure Box where
  x1 : Int
  y1 : Int
  x2 : Int
  y2 : Int
  conf : ℚ
  cls : Nat
deriving DecidableEq

/-- The detection loop body of `generate_frames` (lines 127-140): iterate over
`results.boxes` with `fire_detected` initially false; a box is drawn iff
`conf > 0.5` (strict); the first drawn box whose class name is "fire" sets the flag
and calls `speak_text`. Returns (drawn boxes in order, number of
`speak_text` invocations, throttle state after). -/
def processBoxes (names : Nat → String) (now : ℚ) :
    List Box → Bool → TTSState → List Box × Nat × TTSState
  | [], _, ts => ([], 0, ts)
  | b :: rest, fire_detected, ts =>
    if conf_threshold < b.conf then
      if names b.cls = "fire" ∧ fire_detected = false then
        let ts1 := (speak_text now ts).2
        let r := processBoxes names now rest true ts1
        (b :: r.1, r.2.1 + 1, r.2.2)
      else
        let r := processBoxes names now rest fire_detected ts
        (b :: r.1, r.2.1, r.2.2)
    else
      processBoxes names now rest fire_detected ts

/-- A surviving fire detection: confidence strictly above 0.5 and class name
"fire". -/
def survivingFire (names : Nat → String) (b : Box) : Bool :=
  decide (conf_threshold < b.conf) && (names b.cls == "fire")

/-- A capture handle, as produced by `cv2.VideoCapture`: an object always
comes back, `opened` records whether `isOpened()` is true. -/
structure Cap where
  id : Nat
  opened : Bool
deriving DecidableEq

/-- A recording writer, as produced by `cv2.VideoWriter`: the constructor
always returns an object; `opened` records whether the file/codec could
actually be opened. The source never inspects this flag. -/
structure Writer where
  opened : Bool
deriving DecidableEq

/-- The module-level mutable state of app.py: `camera`, `is_camera_active`,
`recording`, `out`, plus the per-connection WebSocket capture handles and
two ghost counters instrumenting `cv2.VideoWriter` constructions and
`out.release()` calls (for handle accounting only; they influence nothing). -/
structure ProcState where
  camera : Option Cap
  is_camera_active : Bool
  recording : Bool
  out : Option Writer
  wsHandles : Nat
  wCreated : Nat
  wReleased : Nat
deriving DecidableEq

/-- The state at module load: no camera, inactive, not recording, no writer. -/
def initState : ProcState :=
  { camera := none, is_camera_active := false, recording := false,
    out := none, wsHandles := 0, wCreated := 0, wReleased := 0 }

/-- `get_camera`. Device availability is passed in: `dev0` / `dev1` say
whether `cv2.VideoCapture(0)` / `cv2.VideoCapture(1)` open, `fid` is the
identity of a freshly opened handle. The body runs only when the global
`camera` is `None` and `is_camera_active` is true; when both devices fail
the global keeps the dead capture object while `None` is returned. -/
def get_camera (dev0 dev1 : Bool) (fid : Nat) (s : ProcState) :
    Option Cap × ProcState :=
  if s.camera = none ∧ s.is_camera_active = true then
    if dev0 then
      (some ⟨fid, true⟩, { s with camera := some ⟨fid, true⟩ })
    else if dev1 then
      (some ⟨fid, true⟩, { s with camera := some ⟨fid, true⟩ })
    else
      (none, { s with camera := some ⟨fid, false⟩ })
  else
    (s.camera, s)

/-- `release_camera`: if a camera object is held, release it and clear the
active flag; otherwise do nothing. -/
def release_camera (s : ProcState) : ProcState :=
  match s.camera with
  | some _ => { s with camera := none, is_camera_active := false }
  | none => s

/-- `start_recording`. `writerOk` says whether the `cv2.VideoWriter` can
actually open its output (codec/path/disk); the source neither checks it
nor branches on it. Returns the JSON status string with the new state. -/
def start_recording (writerOk : Bool) (s : ProcState) : String × ProcState :=
  if s.recording = false then
    ("recording started",
     { s with is_camera_active := true, recording := true,
              out := some ⟨writerOk⟩, wCreated := s.wCreated + 1 })
  else
    ("recording started", s)

/-- `stop_recording`: when recording, clear both flags, release the writer if
present, then `release_camera`; otherwise just return the JSON status. -/
def stop_recording (s : ProcState) : String × ProcState :=
  if s.recording = true then
    let s1 := { s with recording := false, is_camera_active := false }
    let s2 :=
      match s1.out with
      | some _ => { s1 with out := none, wReleased := s1.wReleased + 1 }
      | none => s1
    ("recording stopped", release_camera s2)
  else
    ("recording stopped", s)

/-- A WebSocket connection opening its own `cv2.VideoCapture(1)`; `ok` says
whether the device opens. Only an opened device counts as an open handle. -/
def ws_connect (ok : Bool) (s : ProcState) : ProcState :=
  { s with wsHandles := s.wsHandles + (if ok then 1 else 0) }

/-- The `finally` block of the WebSocket endpoint releasing its capture. -/
def ws_disconnect (s : ProcState) : ProcState :=
  { s with wsHandles := s.wsHandles - 1 }

/-- Number of camera device handles open in the process: the global
`get_camera` handle (when actually opened) plus all WebSocket handles. -/
def openCameraHandles (s : ProcState) : Nat :=
  (match s.camera with
   | some c => if c.opened then 1 else 0
   | none => 0) + s.wsHandles

/-- Number of open writer handles: writers constructed minus writers
released. -/
def openWriterHandles (s : ProcState) : Nat :=
  s.wCreated - s.wReleased

/-- A control request to the recording endpoints. -/
inductive RecOp
  | start
  | stop
deriving DecidableEq

/-- Run a sequence of `start_recording` / `stop_recording` requests (with the
writer device available). -/
def runRecOps (s : ProcState) : List RecOp → ProcState
  | [] => s
  | RecOp.start :: rest => runRecOps (start_recording true s).2 rest
  | RecOp.stop :: rest => runRecOps (stop_recording s).2 rest

/-- Number of `start` requests in a sequence. -/
def countStarts : List RecOp → Nat
  | [] => 0
  | RecOp.start :: rest => countStarts rest + 1
  | RecOp.stop :: rest => countStarts rest

/-- Number of `stop` requests in a sequence. -/
def countStops : List RecOp → Nat
  | [] => 0
  | RecOp.start :: rest => countStops rest
  | RecOp.stop :: rest => countStops rest + 1

/-- The recording invariant: releases never outrun constructions, exactly one
writer is open while recording and none while idle, and the held writer
object exists exactly while recording. -/
def RecInv (s : ProcState) : Prop :=
  s.wReleased ≤ s.wCreated ∧
  s.wCreated = s.wReleased + (if s.recording then 1 else 0) ∧
  s.out.isSome = s.recording

/-- External events of one iteration of a frame loop: the outcome of
`camera.read()` (`none` = read failure, `some boxes` = a frame whose
detection yields `boxes`), whether the remainder of the `try` block raises
an exception (model inference, drawing, `out.write`, or `imencode`), and
the wall-clock time of the iteration. -/
structure IterEnv where
  read : Option (List Box)
  raises : Bool
  time : ℚ
deriving DecidableEq

/-- An iteration environment that completes normally: the read succeeded and
no exception was raised. -/
def IterEnv.good (e : IterEnv) : Bool :=
  e.read.isSome && !e.raises

/-- The `while is_camera_active` loop of `generate_frames` (lines 116-153),
with `recording` and `out is not None` constant over the run (no concurrent
endpoint call is modelled). A failed read prints and breaks; an exception
anywhere in the `try` block prints and breaks; otherwise the iteration
filters/draws boxes via `processBoxes`, feeds the writer when
`recording and out is not None`, and yields one multipart chunk. Returns
(the drawn-box list of each yielded chunk, the number of writer feeds, the
final throttle state). -/
def frames_loop (names : Nat → String) (recording outSome : Bool) :
    List IterEnv → TTSState → List (List Box) × Nat × TTSState
  | [], ts => ([], 0, ts)
  | e :: rest, ts =>
    match e.read with
    | none => ([], 0, ts)
    | some boxes =>
      if e.raises then ([], 0, ts)
      else
        let p := processBoxes names e.time boxes false ts
        let w : Nat := if recording ∧ outSome then 1 else 0
        let r := frames_loop names recording outSome rest p.2.2
        (p.1 :: r.1, w + r.2.1, r.2.2)

/-- `generate_frames` (lines 102-153): call `get_camera`; a `None` camera
returns immediately with no chunk; otherwise run the loop while
`is_camera_active` holds (zero iterations when it is already false). -/
def generate_frames (names : Nat → String) (dev0 dev1 : Bool) (fid : Nat)
    (envs : List IterEnv) (s : ProcState) (ts : TTSState) :
    List (List Box) × Nat × TTSState :=
  match get_camera dev0 dev1 fid s with
  | (none, _) => ([], 0, ts)
  | (some _, s1) =>
    if s1.is_camera_active then
      frames_loop names s1.recording s1.out.isSome envs ts
    else
      ([], 0, ts)

/-- The local state of one WebSocket connection: the function-local
`recording` and `out` variables (lines 302-303), assigned once and never
updated anywhere in the handler. -/
structure WsState where
  recording : Bool
  out : Option Writer
deriving DecidableEq

/-- The `while cap.isOpened()` loop of `websocket_endpoint` (lines 306-336):
per readable frame it draws the `conf > 0.5` overlay, writes to `out` only
when `recording and out is not None`, encodes and sends the frame. The body
contains no `speak_text` call, so the speak counter is 0 per iteration.
Returns (drawn-box list of each sent frame, total `speak_text` invocations,
total writer feeds). -/
def websocket_run (names : Nat → String) (st : WsState) :
    List (Option (List Box)) → List (List Box) × Nat × Nat
  | [] => ([], 0, 0)
  | none :: _ => ([], 0, 0)
  | some boxes :: rest =>
    let drawn := boxes.filter (fun b => conf_threshold < b.conf)
    let w : Nat := if st.recording = true ∧ st.out ≠ none then 1 else 0
    let r := websocket_run names st rest
    (drawn :: r.1, r.2.1, w + r.2.2)

/-- A sequence of `speak_text` calls: each entry carries the call time and
whether the previously spawned worker thread happens to finish (clearing
`is_speaking`) just before the call. Returns how many calls initiated the
speech side effect. -/
def runCalls : List (ℚ × Bool) → TTSState → Nat
  | [], _ => 0
  | (t, clr) :: rest, s =>
    let s0 := if clr then { s with is_speaking := false } else s
    let r := speak_text t s0
    (if r.1 then 1 else 0) + runCalls rest r.2

/-- A concrete label map used in concrete evaluations: every class index is
named "fire". -/
def namesFire : Nat → String := fun _ => "fire"

/-- A concrete process state holding an open camera handle. -/
def camState : ProcState :=
  { initState with camera := some ⟨5, true⟩ }

/-- Drawn boxes are exactly the confidence filter `conf > 0.5`, independent of
the fire flag and throttle state. -/
theorem processBoxes_drawn (names : Nat → String) (now : ℚ) (bs : List Box)
    (f : Bool) (ts : TTSState) :
    (processBoxes names now bs f ts).1 =
      bs.filter (fun b => conf_threshold < b.conf) := by
  induction bs generalizing f ts with
  | nil => simp [processBoxes]
  | cons b rest ih =>
    by_cases hc : conf_threshold < b.conf
    · by_cases hf : names b.cls = "fire" ∧ f = false
      · simp [processBoxes, hc, hf, List.filter, ih]
      · simp [processBoxes, hc, hf, List.filter, ih]
    · simp [processBoxes, hc, List.filter, ih]

/-- With the fire flag already set, the loop body makes no further
`speak_text` call and leaves the throttle state unchanged. -/
theorem processBoxes_flagged (names : Nat → String) (now : ℚ) (bs : List Box)
    (ts : TTSState) :
    (processBoxes names now bs true ts).2.1 = 0 ∧
      (processBoxes names now bs true ts).2.2 = ts := by
  induction bs generalizing ts with
  | nil => simp [processBoxes]
  | cons b rest ih =>
    by_cases hc : conf_threshold < b.conf
    · simp [processBoxes, hc, ih]
    · simp [processBoxes, hc, ih]

/-- `speak_text` is invoked once if some surviving detection has class "fire",
and never otherwise. -/
theorem processBoxes_calls (names : Nat → String) (now : ℚ) (bs : List Box)
    (ts : TTSState) :
    (processBoxes names now bs false ts).2.1 =
      (if bs.any (survivingFire names) then 1 else 0) := by
  induction bs generalizing ts with
  | nil => simp [processBoxes]
  | cons b rest ih =>
    by_cases hc : conf_threshold < b.conf
    · by_cases hf : names b.cls = "fire"
      · have hflag := processBoxes_flagged names now rest (speak_text now ts).2
        simp [processBoxes, hc, hf, survivingFire, hflag.1]
      · simp [processBoxes, hc, hf, survivingFire, ih]
    · have hc2 : ¬ (conf_threshold < b.conf) := hc
      simp [processBoxes, hc, survivingFire, hc2, ih]

/-- If no surviving detection has class "fire", the throttle state is
untouched by the loop body (for either initial flag value). -/
theorem processBoxes_ts_untouched (names : Nat → String) (now : ℚ)
    (bs : List Box) (f : Bool) (ts : TTSState)
    (h : bs.any (survivingFire names) = false) :
    (processBoxes names now bs f ts).2.2 = ts := by
  induction bs generalizing f ts with
  | nil => simp [processBoxes]
  | cons b rest ih =>
    simp only [List.any_cons, Bool.or_eq_false_iff] at h
    by_cases hc : conf_threshold < b.conf
    · have hf : ¬ (names b.cls = "fire") := by
        intro hfire
        have : survivingFire names b = true := by
          simp [survivingFire, hc, hfire]
        rw [this] at h
        exact absurd h.1 (by simp)
      simp [processBoxes, hc, hf, ih _ _ h.2]
    · simp [processBoxes, hc, ih _ _ h.2]

/-- The loop yields exactly one chunk per iteration of the longest prefix of
environments that complete normally; the first failed read or raised
exception ends the stream. -/
theorem frames_loop_chunks (names : Nat → String) (recording outSome : Bool)
    (envs : List IterEnv) (ts : TTSState) :
    (frames_loop names recording outSome envs ts).1.length =
      (envs.takeWhile IterEnv.good).length := by
  induction envs generalizing ts with
  | nil => simp [frames_loop]
  | cons e rest ih =>
    match hr : e.read with
    | none =>
      simp [frames_loop, hr, List.takeWhile, IterEnv.good]
    | some boxes =>
      by_cases hx : e.raises
      · simp [frames_loop, hr, hx, List.takeWhile, IterEnv.good]
      · simp [frames_loop, hr, hx, List.takeWhile, IterEnv.good, ih]

/-- If the throttle last fired at or after `t0`, no call strictly inside the
cooldown window starting at `t0` can fire, whatever the in-flight flag
does. -/
theorem runCalls_zero_in_window (calls : List (ℚ × Bool)) (t0 : ℚ)
    (s : TTSState) (hw : ∀ c ∈ calls, c.1 < t0 + TTS_INTERVAL)
    (hl : t0 ≤ s.last_tts_time) :
    runCalls calls s = 0 := by
  induction calls generalizing s with
  | nil => rfl
  | cons c rest ih =>
    obtain ⟨t, clr⟩ := c
    have ht : t < t0 + TTS_INTERVAL := hw (t, clr) (List.mem_cons_self _ _)
    have hwrest : ∀ c ∈ rest, c.1 < t0 + TTS_INTERVAL :=
      fun c hc => hw c (List.mem_cons_of_mem _ hc)
    simp only [runCalls]
    set s0 := if clr then { s with is_speaking := false } else s with hs0
    have hlast : s0.last_tts_time = s.last_tts_time := by
      rw [hs0]
      by_cases hclr : clr <;> simp [hclr]
    have hno : speak_text t s0 = (false, s0) := by
      have hcond : ¬ (TTS_INTERVAL ≤ t - s0.last_tts_time ∧ s0.is_speaking = false) := by
        rintro ⟨hge, -⟩
        rw [hlast] at hge
        linarith
      simp [speak_text, hcond]
    rw [hno]
    rw [if_neg Bool.false_ne_true, Nat.zero_add]
    exact ih s0 hwrest (hlast ▸ hl)

/-- At most one of any number of `speak_text` calls falling inside one
cooldown window initiates the side effect, regardless of when the worker
thread clears the in-flight flag. -/
theorem runCalls_le_one (calls : List (ℚ × Bool)) (t0 : ℚ) (s : TTSState)
    (hw : ∀ c ∈ calls, t0 ≤ c.1 ∧ c.1 < t0 + TTS_INTERVAL) :
    runCalls calls s ≤ 1 := by
  induction calls generalizing s with
  | nil => simp [runCalls]
  | cons c rest ih =>
    obtain ⟨t, clr⟩ := c
    have ht := hw (t, clr) (List.mem_cons_self _ _)
    have hwrest : ∀ c ∈ rest, t0 ≤ c.1 ∧ c.1 < t0 + TTS_INTERVAL :=
      fun c hc => hw c (List.mem_cons_of_mem _ hc)
    simp only [runCalls]
    set s0 := if clr then { s with is_speaking := false } else s with hs0
    by_cases hcond : TTS_INTERVAL ≤ t - s0.last_tts_time ∧ s0.is_speaking = false
    · have hfire : speak_text t s0 =
          (true, { is_speaking := true, last_tts_time := t }) := by
        simp [speak_text, hcond]
      rw [hfire]
      have hrest0 : runCalls rest { is_speaking := true, last_tts_time := t } = 0 :=
        runCalls_zero_in_window rest t0 _ (fun c hc => (hwrest c hc).2) ht.1
      rw [if_pos rfl, hrest0]
    · have hno : speak_text t s0 = (false, s0) := by
        simp [speak_text, hcond]
      rw [hno]
      rw [if_neg Bool.false_ne_true, Nat.zero_add]
      exact ih s0 hwrest

/-- The recording invariant holds initially. -/
theorem recInv_init : RecInv initState := by
  refine ⟨le_refl _, ?_, rfl⟩
  simp [initState]

/-- `release_camera` touches only the camera and active-flag fields. -/
theorem release_camera_fields (s : ProcState) :
    (release_camera s).recording = s.recording ∧
    (release_camera s).out = s.out ∧
    (release_camera s).wCreated = s.wCreated ∧
    (release_camera s).wReleased = s.wReleased := by
  obtain ⟨cam, act, rec, o, wsh, wc, wr⟩ := s
  cases cam <;> simp [release_camera]

/-- `release_camera` preserves the recording invariant. -/
theorem recInv_release (s : ProcState) (h : RecInv s) :
    RecInv (release_camera s) := by
  obtain ⟨hrec, hout, hc, hw⟩ := release_camera_fields s
  obtain ⟨h1, h2, h3⟩ := h
  refine ⟨?_, ?_, ?_⟩
  · rw [hc, hw]; exact h1
  · rw [hc, hw, hrec]; exact h2
  · rw [hout, hrec]; exact h3

/-- The state produced by an effective `start_recording`. -/
theorem start_recording_eq (w : Bool) (s : ProcState) (hr : s.recording = false) :
    start_recording w s = ("recording started",
      { s with is_camera_active := true, recording := true,
               out := some ⟨w⟩, wCreated := s.wCreated + 1 }) := by
  simp [start_recording, hr]

/-- `start_recording` on an already-recording state changes nothing. -/
theorem start_recording_noop (w : Bool) (s : ProcState) (hr : s.recording = true) :
    start_recording w s = ("recording started", s) := by
  simp [start_recording, hr]

/-- `stop_recording` on an idle state changes nothing. -/
theorem stop_recording_noop (s : ProcState) (hr : s.recording = false) :
    stop_recording s = ("recording stopped", s) := by
  simp [stop_recording, hr]

/-- The state produced by an effective `stop_recording` when a writer object
is held. -/
theorem stop_recording_eq (s : ProcState) (w : Writer) (hr : s.recording = true)
    (ho : s.out = some w) :
    stop_recording s = ("recording stopped", release_camera
      { s with recording := false, is_camera_active := false,
               out := none, wReleased := s.wReleased + 1 }) := by
  simp [stop_recording, hr, ho]

/-- `start_recording` preserves the recording invariant. -/
theorem recInv_start (w : Bool) (s : ProcState) (h : RecInv s) :
    RecInv (start_recording w s).2 := by
  obtain ⟨h1, h2, h3⟩ := h
  by_cases hr : s.recording = true
  · rw [start_recording_noop w s hr]
    exact ⟨h1, h2, h3⟩
  · have hr2 : s.recording = false := by
      cases hb : s.recording
      · rfl
      · exact absurd hb hr
    rw [hr2] at h2
    simp at h2
    rw [start_recording_eq w s hr2]
    refine ⟨?_, ?_, ?_⟩ <;> simp <;> omega

/-- `stop_recording` preserves the recording invariant. -/
theorem recInv_stop (s : ProcState) (h : RecInv s) :
    RecInv (stop_recording s).2 := by
  obtain ⟨h1, h2, h3⟩ := h
  by_cases hr : s.recording = true
  · obtain ⟨w, hwout⟩ : ∃ w, s.out = some w := by
      rw [hr] at h3
      cases hos : s.out with
      | none => rw [hos] at h3; simp at h3
      | some w => exact ⟨w, rfl⟩
    rw [hr] at h2
    simp at h2
    rw [stop_recording_eq s w hr hwout]
    apply recInv_release
    refine ⟨?_, ?_, ?_⟩ <;> simp <;> omega
  · have hr2 : s.recording = false := by
      cases hb : s.recording
      · rfl
      · exact absurd hb hr
    rw [stop_recording_noop s hr2]
    exact ⟨h1, h2, h3⟩

/-- `stop_recording` never constructs a writer. -/
theorem stop_recording_wCreated (s : ProcState) :
    (stop_recording s).2.wCreated = s.wCreated := by
  by_cases hr : s.recording = true
  · cases hos : s.out with
    | none =>
      simp only [stop_recording, hr, if_pos rfl, hos]
      exact (release_camera_fields _).2.2.1
    | some w =>
      rw [stop_recording_eq s w hr hos]
      exact (release_camera_fields _).2.2.1
  · have hr2 : s.recording = false := by
      cases hb : s.recording
      · rfl
      · exact absurd hb hr
    rw [stop_recording_noop s hr2]

/-- `start_recording` constructs at most one writer. -/
theorem start_recording_wCreated (w : Bool) (s : ProcState) :
    (start_recording w s).2.wCreated ≤ s.wCreated + 1 := by
  by_cases hr : s.recording = true
  · rw [start_recording_noop w s hr]
    exact Nat.le_succ _
  · have hr2 : s.recording = false := by
      cases hb : s.recording
      · rfl
      · exact absurd hb hr
    rw [start_recording_eq w s hr2]

/-- Running any request sequence from an invariant state keeps the invariant
and constructs at most one writer per `start` request. -/
theorem runRecOps_inv (ops : List RecOp) (s : ProcState) (h : RecInv s) :
    RecInv (runRecOps s ops) ∧
      (runRecOps s ops).wCreated ≤ s.wCreated + countStarts ops := by
  induction ops generalizing s with
  | nil => exact ⟨h, Nat.le_refl _⟩
  | cons op rest ih =>
    cases op with
    | start =>
      obtain ⟨hi, hc⟩ := ih _ (recInv_start true s h)
      refine ⟨hi, le_trans hc ?_⟩
      have hstep := start_recording_wCreated true s
      simp only [countStarts]
      omega
    | stop =>
      obtain ⟨hi, hc⟩ := ih _ (recInv_stop s h)
      refine ⟨hi, le_trans hc ?_⟩
      have hstep := stop_recording_wCreated s
      simp only [countStarts]
      omega

/-- The state produced by an effective `stop_recording` when no writer object
is held. -/
theorem stop_recording_eq_none (s : ProcState) (hr : s.recording = true)
    (ho : s.out = none) :
    stop_recording s = ("recording stopped", release_camera
      { s with recording := false, is_camera_active := false }) := by
  simp [stop_recording, hr, ho]

/-- `release_camera` never turns the active flag on. -/
theorem release_camera_inactive (s : ProcState) (h : s.is_camera_active = false) :
    (release_camera s).is_camera_active = false := by
  obtain ⟨cam, act, rec, o, wsh, wc, wr⟩ := s
  cases cam with
  | none => simpa [release_camera] using h
  | some c => simp [release_camera]

/-- `stop_recording` never turns the active flag on. -/
theorem stop_recording_inactive (s : ProcState) (h : s.is_camera_active = false) :
    (stop_recording s).2.is_camera_active = false := by
  by_cases hr : s.recording = true
  · cases hos : s.out with
    | none =>
      rw [stop_recording_eq_none s hr hos]
      exact release_camera_inactive _ rfl
    | some w =>
      rw [stop_recording_eq s w hr hos]
      exact release_camera_inactive _ rfl
  · have hr2 : s.recording = false := by
      cases hb : s.recording
      · rfl
      · exact absurd hb hr
    rw [stop_recording_noop s hr2]
    exact h

/-- `get_camera` never changes the active flag. -/
theorem get_camera_active (d0 d1 : Bool) (fid : Nat) (s : ProcState) :
    (get_camera d0 d1 fid s).2.is_camera_active = s.is_camera_active := by
  unfold get_camera
  by_cases hg : s.camera = none ∧ s.is_camera_active = true
  · by_cases h0 : d0 = true
    · simp [hg, h0]
    · by_cases h1 : d1 = true <;> simp [hg, h0, h1]
  · simp [hg]

/-- C1 counterexample: an iteration whose detection step raises an exception
does not merely skip its downstream steps — it terminates the loop, so a
following healthy iteration (which alone would yield one chunk) yields
nothing. -/
theorem C1_counterexample :
    (frames_loop namesFire false false
      [⟨some [], true, 0⟩, ⟨some [], false, 0⟩] ⟨false, 0⟩).1 = [] ∧
    (frames_loop namesFire false false
      [⟨some [], false, 0⟩] ⟨false, 0⟩).1 = [[]] := by
  exact ⟨rfl, rfl⟩

/-- C1 (amended): any exception raised inside the per-frame `try` block —
detection, overlay, recording feed, or JPEG encoding — is logged and
terminates the frame loop, exactly like a failed camera read; the loop
yields one chunk per iteration of the longest prefix of iterations whose
read succeeds and which raise no exception. -/
theorem C1_loop_termination (names : Nat → String) (recording outSome : Bool)
    (envs : List IterEnv) (ts : TTSState) :
    (frames_loop names recording outSome envs ts).1.length =
      (envs.takeWhile IterEnv.good).length ∧
    (∀ (e : IterEnv) (rest : List IterEnv), e.read = none →
      frames_loop names recording outSome (e :: rest) ts = ([], 0, ts)) ∧
    (∀ (e : IterEnv) (rest : List IterEnv), e.raises = true →
      frames_loop names recording outSome (e :: rest) ts = ([], 0, ts)) := by
  refine ⟨frames_loop_chunks names recording outSome envs ts, ?_, ?_⟩
  · intro e rest h
    simp [frames_loop, h]
  · intro e rest h
    cases hr : e.read with
    | none => simp [frames_loop, hr]
    | some bs => simp [frames_loop, hr, h]

/-- C1 witness: the amended theorem evaluated at a failed read and at a
raising iteration. -/
theorem C1_witness :
    frames_loop namesFire false false [⟨none, false, 0⟩] ⟨false, 0⟩ =
      ([], 0, ⟨false, 0⟩) ∧
    frames_loop namesFire false false [⟨some [], true, 0⟩] ⟨false, 0⟩ =
      ([], 0, ⟨false, 0⟩) := by
  refine ⟨?_, ?_⟩
  · exact (C1_loop_termination namesFire false false [] ⟨false, 0⟩).2.1
      ⟨none, false, 0⟩ [] rfl
  · exact (C1_loop_termination namesFire false false [] ⟨false, 0⟩).2.2
      ⟨some [], true, 0⟩ [] rfl

/-- C2 counterexample: a detection with confidence exactly 0.5 and class
"fire" is not in the surviving set — it is not drawn and does not reach the
alert — because the source filter is the strict `conf > 0.5`. -/
theorem C2_counterexample :
    (processBoxes namesFire 0 [⟨0, 0, 1, 1, conf_threshold, 0⟩] false
      ⟨false, 0⟩).1 = [] ∧
    (processBoxes namesFire 0 [⟨0, 0, 1, 1, conf_threshold, 0⟩] false
      ⟨false, 0⟩).2.1 = 0 := by
  have hlt : ¬ conf_threshold < conf_threshold := lt_irrefl _
  constructor
  · simp [processBoxes, hlt]
  · simp [processBoxes, hlt]

/-- C2 (amended): the frame processor acts on a detection iff its confidence
is strictly greater than 0.5: the overlay is exactly the strict filter, a
detection with confidence at most 0.5 (0.5 included) is never drawn, and if
every "fire"-class detection is at or below 0.5 no alert call is made and
the throttle state is untouched. -/
theorem C2_strict_threshold (names : Nat → String) (now : ℚ) (bs : List Box)
    (f : Bool) (ts : TTSState) :
    (processBoxes names now bs f ts).1 =
      bs.filter (fun b => conf_threshold < b.conf) ∧
    ((∀ b ∈ bs, names b.cls = "fire" → ¬ conf_threshold < b.conf) →
      (processBoxes names now bs false ts).2.1 = 0 ∧
      (processBoxes names now bs f ts).2.2 = ts) := by
  refine ⟨processBoxes_drawn names now bs f ts, ?_⟩
  intro h
  have hany : bs.any (survivingFire names) = false := by
    rw [List.any_eq_false]
    intro b hb
    unfold survivingFire
    by_cases hn : names b.cls = "fire"
    · simp [hn, h b hb hn]
    · simp [hn]
  refine ⟨?_, processBoxes_ts_untouched names now bs f ts hany⟩
  rw [processBoxes_calls names now bs ts, hany]
  rfl

/-- C2 witness: the amended theorem at a single zero-confidence fire
detection. -/
theorem C2_witness :
    (processBoxes namesFire 0 [⟨0, 0, 1, 1, 0, 0⟩] false ⟨false, 0⟩).1 = [] ∧
    (processBoxes namesFire 0 [⟨0, 0, 1, 1, 0, 0⟩] false ⟨false, 0⟩).2.1 = 0 := by
  have h := C2_strict_threshold namesFire 0 [⟨0, 0, 1, 1, 0, 0⟩] false ⟨false, 0⟩
  have hzero : ¬ conf_threshold < (0 : ℚ) := by norm_num [conf_threshold]
  have hyp : ∀ b ∈ [(⟨0, 0, 1, 1, 0, 0⟩ : Box)],
      namesFire b.cls = "fire" → ¬ conf_threshold < b.conf := by
    intro b hb
    rw [List.mem_singleton] at hb
    subst hb
    exact fun _ => hzero
  refine ⟨?_, (h.2 hyp).1⟩
  rw [h.1]
  simp [List.filter, hzero]

/-- C3 counterexample: starting recording when the writer cannot be opened
still returns the success JSON, moves the state to Recording, and retains
the dead writer object — no error is surfaced and the state does not
remain Idle. -/
theorem C3_counterexample :
    (start_recording false initState).1 = "recording started" ∧
    (start_recording false initState).2.recording = true ∧
    (start_recording false initState).2.out = some ⟨false⟩ := by
  exact ⟨rfl, rfl, rfl⟩

/-- C3 (amended): whether or not the writer can be created, `start_recording`
from an idle state reports success, sets the camera-active and recording
flags, and retains the (possibly unopened) writer object; no error path
exists. -/
theorem C3_start_reports_success (w : Bool) (s : ProcState)
    (h : s.recording = false) :
    start_recording w s = ("recording started",
      { s with is_camera_active := true, recording := true,
               out := some ⟨w⟩, wCreated := s.wCreated + 1 }) :=
  start_recording_eq w s h

/-- C3 witness: the amended theorem at the initial state with a failing
writer. -/
theorem C3_witness :
    (start_recording false initState).1 = "recording started" ∧
    (start_recording false initState).2.out = some ⟨false⟩ := by
  rw [C3_start_reports_success false initState rfl]
  exact ⟨rfl, rfl⟩

/-- C4: the throttle fires iff the cooldown elapsed and no speech is in
flight; a firing call sets the in-flight flag and stamps the fire time; a
non-firing call leaves the state unchanged; and any number of calls whose
times fall within one cooldown window initiate at most one side effect,
regardless of when the in-flight flag is cleared. -/
theorem C4_throttle_fires_iff (now : ℚ) (s : TTSState)
    (calls : List (ℚ × Bool)) (t0 : ℚ) :
    ((speak_text now s).1 = true ↔
      (TTS_INTERVAL ≤ now - s.last_tts_time ∧ s.is_speaking = false)) ∧
    ((speak_text now s).1 = true →
      (speak_text now s).2 = { is_speaking := true, last_tts_time := now }) ∧
    ((speak_text now s).1 = false → (speak_text now s).2 = s) ∧
    ((∀ c ∈ calls, t0 ≤ c.1 ∧ c.1 < t0 + TTS_INTERVAL) →
      runCalls calls s ≤ 1) := by
  refine ⟨?_, ?_, ?_, runCalls_le_one calls t0 s⟩
  · by_cases h : TTS_INTERVAL ≤ now - s.last_tts_time ∧ s.is_speaking = false
    · simp [speak_text, h]
    · simp [speak_text, h]
  · intro hf
    by_cases h : TTS_INTERVAL ≤ now - s.last_tts_time ∧ s.is_speaking = false
    · simp [speak_text, h]
    · simp [speak_text, h] at hf
  · intro hf
    by_cases h : TTS_INTERVAL ≤ now - s.last_tts_time ∧ s.is_speaking = false
    · simp [speak_text, h] at hf
    · simp [speak_text, h]

/-- C4 witness: a call 10 seconds after the epoch fires from the idle state,
and three calls inside one 5-second window fire at most once. -/
theorem C4_witness :
    (speak_text 10 ⟨false, 0⟩).1 = true ∧
    runCalls [(10, false), (11, false), (14, true)] ⟨false, 0⟩ ≤ 1 := by
  have h := C4_throttle_fires_iff 10 ⟨false, 0⟩
    [(10, false), (11, false), (14, true)] 10
  refine ⟨h.1.mpr ⟨by norm_num [TTS_INTERVAL], rfl⟩, h.2.2.2 ?_⟩
  intro c hc
  fin_cases hc <;> exact ⟨by norm_num, by norm_num [TTS_INTERVAL]⟩

/-- C5: within one iteration, the alert throttle is invoked exactly once when
at least one surviving detection has class "fire" (first-match
short-circuit) and not at all otherwise, regardless of how many surviving
fire detections exist. -/
theorem C5_alert_once_per_iteration (names : Nat → String) (now : ℚ)
    (bs : List Box) (ts : TTSState) :
    (processBoxes names now bs false ts).2.1 =
      (if bs.any (survivingFire names) then 1 else 0) :=
  processBoxes_calls names now bs ts

/-- C6 counterexample: after the request sequence start, stop, stop, start the
writer-open count is 1 while the start count minus the stop count is 0, so
the count exceeds starts minus stops. -/
theorem C6_counterexample :
    openWriterHandles (runRecOps initState
      [RecOp.start, RecOp.stop, RecOp.stop, RecOp.start]) = 1 ∧
    countStarts [RecOp.start, RecOp.stop, RecOp.stop, RecOp.start] = 2 ∧
    countStops [RecOp.start, RecOp.stop, RecOp.stop, RecOp.start] = 2 ∧
    ¬ ((openWriterHandles (runRecOps initState
          [RecOp.start, RecOp.stop, RecOp.stop, RecOp.start]) : ℤ) ≤
        (countStarts [RecOp.start, RecOp.stop, RecOp.stop, RecOp.start] : ℤ) -
        (countStops [RecOp.start, RecOp.stop, RecOp.stop, RecOp.start] : ℤ)) := by
  refine ⟨rfl, rfl, rfl, by decide⟩

/-- C6 (amended): for every sequence of recording requests from the initial
state, starting while recording is a no-op (no second writer), stopping
while stopped performs no writer operation, and the writer-open count
equals 1 while recording and 0 while idle — never negative and never more
than the number of start requests. -/
theorem C6_writer_handle_invariant (ops : List RecOp) (w : Bool)
    (s : ProcState) :
    (openWriterHandles (runRecOps initState ops) =
      (if (runRecOps initState ops).recording then 1 else 0)) ∧
    openWriterHandles (runRecOps initState ops) ≤ countStarts ops ∧
    (s.recording = true → start_recording w s = ("recording started", s)) ∧
    (s.recording = false → stop_recording s = ("recording stopped", s)) := by
  obtain ⟨⟨h1, h2, h3⟩, hc⟩ := runRecOps_inv ops initState recInv_init
  have h0 : initState.wCreated = 0 := rfl
  refine ⟨?_, ?_, start_recording_noop w s, stop_recording_noop s⟩
  · unfold openWriterHandles
    by_cases hrec : (runRecOps initState ops).recording = true
    · simp only [hrec, if_pos rfl] at h2 ⊢
      simp at h2 ⊢
      omega
    · have hrec2 : (runRecOps initState ops).recording = false := by
        cases hb : (runRecOps initState ops).recording
        · rfl
        · exact absurd hb hrec
      rw [hrec2] at h2 ⊢
      simp at h2 ⊢
      omega
  · unfold openWriterHandles
    omega

/-- C6 witness: the amended theorem at the empty request sequence, an
already-recording state and the idle initial state. -/
theorem C6_witness :
    start_recording true { initState with recording := true } =
      ("recording started", { initState with recording := true }) ∧
    stop_recording initState = ("recording stopped", initState) := by
  refine ⟨?_, ?_⟩
  · exact (C6_writer_handle_invariant [] true
      { initState with recording := true }).2.2.1 rfl
  · exact (C6_writer_handle_invariant [] true initState).2.2.2 rfl

/-- C7: stopping recording while already idle returns the success JSON and
performs no writer operation and no state change. -/
theorem C7_stop_when_idle (s : ProcState) (h : s.recording = false) :
    stop_recording s = ("recording stopped", s) :=
  stop_recording_noop s h

/-- C7 witness: the theorem at the initial (idle) state. -/
theorem C7_witness :
    stop_recording initState = ("recording stopped", initState) :=
  C7_stop_when_idle initState rfl

/-- C8 counterexample: with the HTTP path's camera open (after
`start_recording` and `get_camera`), a WebSocket connection opens a second
device handle, so two camera handles are open in the process at once; and
`release_camera` followed by `get_camera` yields no handle at all (not a
fresh one), because release also clears the camera-active flag. -/
theorem C8_counterexample :
    ¬ (openCameraHandles (ws_connect true
        (get_camera true true 0 (start_recording true initState).2).2) ≤ 1) ∧
    (get_camera true true 1 (release_camera
        (get_camera true true 0 (start_recording true initState).2).2)).1 =
      none := by
  refine ⟨by decide, rfl⟩

/-- C8 (amended): the single-handle guarantee holds only for the global
`get_camera` session: a second `get_camera` while a handle is held returns
the existing handle and opens no second device; `release_camera` followed
by `get_camera` returns no handle (release also clears the active flag),
and a fresh handle is obtained only after `start_recording` re-activates
the camera; the WebSocket path's own capture handle is outside this
guarantee. -/
theorem C8_global_session_exclusive (d0 d1 : Bool) (fid fid2 : Nat)
    (s : ProcState) (c : Cap) (h : s.camera = some c) :
    get_camera d0 d1 fid s = (some c, s) ∧
    (get_camera d0 d1 fid (release_camera s)).1 = none ∧
    (get_camera d0 d1 fid (release_camera s)).2.camera = none ∧
    (d0 = true → s.recording = false →
      (get_camera d0 d1 fid2
        (start_recording true (release_camera s)).2).1 = some ⟨fid2, true⟩) := by
  have hrel : release_camera s =
      { s with camera := none, is_camera_active := false } := by
    simp [release_camera, h]
  refine ⟨?_, ?_, ?_, ?_⟩
  · simp [get_camera, h]
  · rw [hrel]
    simp [get_camera]
  · rw [hrel]
    simp [get_camera]
  · intro hd0 hrec
    rw [hrel]
    have hrec2 :
        ({ s with camera := none, is_camera_active := false } : ProcState).recording = false :=
      hrec
    rw [start_recording_eq true _ hrec2]
    simp [get_camera, hd0]

/-- C8 witness: the amended theorem at a state holding an open handle. -/
theorem C8_witness :
    get_camera true true 7 camState = (some ⟨5, true⟩, camState) ∧
    (get_camera true true 7 (release_camera camState)).1 = none := by
  have h := C8_global_session_exclusive true true 7 8 camState ⟨5, true⟩ rfl
  exact ⟨h.1, h.2.1⟩

/-- C9: the WebSocket loop, whose local recording flag and writer start as
false/none and are never assigned, streams one overlay frame per readable
input but never invokes the alert throttle and never feeds the recording
writer. -/
theorem C9_ws_no_alert_no_record (names : Nat → String)
    (envs : List (Option (List Box))) :
    (websocket_run names ⟨false, none⟩ envs).2.1 = 0 ∧
    (websocket_run names ⟨false, none⟩ envs).2.2 = 0 ∧
    (websocket_run names ⟨false, none⟩ envs).1.length =
      (envs.takeWhile Option.isSome).length := by
  induction envs with
  | nil => exact ⟨rfl, rfl, rfl⟩
  | cons e rest ih =>
    cases e with
    | none => exact ⟨rfl, rfl, rfl⟩
    | some bs =>
      obtain ⟨ih1, ih2, ih3⟩ := ih
      refine ⟨ih1, ?_, ?_⟩
      · simp [websocket_run, ih2]
      · simp [websocket_run, List.takeWhile, ih3]

/-- C10: requesting the video feed while the camera session is inactive (no
handle held, active flag clear) makes `generate_frames` yield nothing and
return immediately, and none of `stop_recording`, `release_camera`,
`get_camera` can turn the active flag on — only `start_recording` does. -/
theorem C10_inactive_session_no_frames (names : Nat → String)
    (d0 d1 : Bool) (fid : Nat) (envs : List IterEnv) (s : ProcState)
    (ts : TTSState) (hcam : s.camera = none)
    (hact : s.is_camera_active = false) :
    generate_frames names d0 d1 fid envs s ts = ([], 0, ts) ∧
    (∀ s' : ProcState, s'.is_camera_active = false →
      (stop_recording s').2.is_camera_active = false ∧
      (release_camera s').is_camera_active = false ∧
      (get_camera d0 d1 fid s').2.is_camera_active = false) := by
  have hg : get_camera d0 d1 fid s = (none, s) := by
    simp [get_camera, hcam, hact]
  refine ⟨?_, ?_⟩
  · unfold generate_frames
    rw [hg]
  · intro s' h'
    refine ⟨stop_recording_inactive s' h', release_camera_inactive s' h', ?_⟩
    rw [get_camera_active]
    exact h'

/-- C10 witness: the theorem at the initial state with a healthy environment
list. -/
theorem C10_witness :
    generate_frames namesFire true true 0 [⟨some [], false, 0⟩] initState
      ⟨false, 0⟩ = ([], 0, ⟨false, 0⟩) ∧
    (stop_recording initState).2.is_camera_active = false := by
  have h := C10_inactive_session_no_frames namesFire true true 0
    [⟨some [], false, 0⟩] initState ⟨false, 0⟩ rfl rfl
  exact ⟨h.1, (h.2 initState rfl).1⟩

end FireApp
